import Mathlib

/-!
Verification development for the News-Summarizer service (`app.py`).

The development shallowly embeds the article-extraction heuristic
(`fetch_full_article`), the sentiment analyzer (`analyze_sentiment`), the
summarizer fallback (`summarize_text`) and the `/summarize` route.  Network
effects are passed in explicitly: the raw response size and parsed DOM stand
in for `requests.get` + BeautifulSoup, and each Groq completion response is a
parameter of type `Option String` (`none` models every failure mode of
`groq_chat`, which the route treats uniformly).  Python string semantics
(str.strip, str.lower, substring `in`, the three `re` patterns used by the
code) are modelled character-by-character, and `json.loads` is modelled by an
executable JSON parser covering objects, arrays, strings with simple escapes,
numbers, booleans and null.  Rationals (`Rat` built via `mkRat`) stand in for
Python floats; none of the verified claims depends on binary rounding.
-/

/-- Python `\s` / `str.strip` whitespace over ASCII: space, tab, newline,
carriage return, vertical tab, form feed. -/
def pyIsSpace (c : Char) : Bool :=
  c == ' ' || c == '\t' || c == '\n' || c == '\r' || c == '\x0b' || c == '\x0c'

/-- Python `str.strip()`: drop whitespace from both ends. -/
def pyStrip (s : String) : String :=
  String.mk (((s.toList.dropWhile pyIsSpace).reverse.dropWhile pyIsSpace).reverse)

/-- Python `str.lower()` (ASCII; every string the code lowercases is ASCII). -/
def lowerStr (s : String) : String :=
  String.mk (s.toList.map Char.toLower)

/-- Does `n` occur at the head of `h`? (helper for the substring test). -/
def listHasPre : List Char → List Char → Bool
  | [], _ => true
  | _ :: _, [] => false
  | a :: xs, b :: ys => a == b && listHasPre xs ys

/-- Does `needle` occur somewhere inside the second list? -/
def listHasSub (needle : List Char) : List Char → Bool
  | [] => listHasPre needle []
  | b :: t => listHasPre needle (b :: t) || listHasSub needle t

/-- Python's substring test `needle in hay`. -/
def strContains (hay needle : String) : Bool :=
  listHasSub needle.toList hay.toList

/-- Does the string contain two consecutive whitespace characters? -/
def hasWsRunAux : List Char → Bool
  | [] => false
  | [_] => false
  | a :: b :: rest => (pyIsSpace a && pyIsSpace b) || hasWsRunAux (b :: rest)

/-- Does the string contain a run of more than one consecutive whitespace
character? -/
def hasWsRun (s : String) : Bool := hasWsRunAux s.toList

/-- One pass of `re.sub(r'\s+', ' ', text)`: every maximal whitespace run
becomes a single space.  Fuel is the input length; each step consumes at
least one character. -/
def collapseAux : Nat → List Char → List Char
  | 0, _ => []
  | _ + 1, [] => []
  | fuel + 1, c :: rest =>
    if pyIsSpace c then ' ' :: collapseAux fuel (rest.dropWhile pyIsSpace)
    else c :: collapseAux fuel rest

/-- `re.sub(r'\s+', ' ', text)` on a character list. -/
def collapseWs (cs : List Char) : List Char := collapseAux cs.length cs

/-- Match the regex fragment `.*?\.`: scan to the first `'.'`, refusing to
cross a newline (`.` does not match `\n` without DOTALL); returns the suffix
after that dot. -/
def findDotNoNl : List Char → Option (List Char)
  | [] => none
  | c :: rest =>
    if c == '.' then some rest
    else if c == '\n' then none
    else findDotNoNl rest

/-- Case-insensitive literal match at the head: `w` is lowercase. -/
def lowerEq : List Char → List Char → Bool
  | [], _ => true
  | _ :: _, [] => false
  | a :: ws, b :: ss => a == b.toLower && lowerEq ws ss

/-- The letters of the literal in `re.sub(r'ADVERTISEMENT.*?\.\s*', '', text,
flags=re.IGNORECASE)`. -/
def advChars : List Char := "advertisement".toList

/-- Left-to-right scan of `re.sub(r'ADVERTISEMENT.*?\.\s*', '', ...)`: at a
case-insensitive occurrence of the literal, the lazy `.*?\.` runs to the
first dot and the greedy `\s*` then eats the following whitespace; the whole
match is deleted and scanning resumes after it. -/
def adSubAux : Nat → List Char → List Char
  | 0, _ => []
  | _ + 1, [] => []
  | fuel + 1, c :: rest =>
    if lowerEq advChars (c :: rest) then
      match findDotNoNl (List.drop 13 (c :: rest)) with
      | some afterDot => adSubAux fuel (afterDot.dropWhile pyIsSpace)
      | none => c :: adSubAux fuel rest
    else c :: adSubAux fuel rest

/-- `re.sub(r'ADVERTISEMENT.*?\.\s*', '', text, flags=re.IGNORECASE)`. -/
def adSub (cs : List Char) : List Char := adSubAux cs.length cs

/-- The alternation of `re.sub(r'\b(?:please|subscribe|share|comment|like)\b.*?\.', '', ...)`.
No word is a prefix of another, so at most one alternative matches at a
position. -/
def promoWords : List (List Char) :=
  ["please".toList, "subscribe".toList, "share".toList, "comment".toList, "like".toList]

/-- Regex word character (`\w`) over ASCII. -/
def isWordChar (c : Char) : Bool := c.isAlphanum || c == '_'

/-- If a promo word matches case-insensitively at the head and is followed by
a word boundary, return its length. -/
def matchPromoAt (cs : List Char) : Option Nat :=
  match promoWords.find? (fun w => lowerEq w cs) with
  | some w =>
    if (match (cs.drop w.length).head? with
        | some c => !(isWordChar c)
        | none => true) then
      some w.length
    else none
  | none => none

/-- Left-to-right scan of
`re.sub(r'\b(?:please|subscribe|share|comment|like)\b.*?\.', '', flags=re.IGNORECASE)`:
`prev` is the character before the scan position (a space stands for the
start of the string), giving the leading `\b`; on a match the lazy `.*?\.`
runs to the first dot and the match is deleted — note no trailing `\s*`
here, so the surrounding whitespace stays. -/
def promoSubAux : Nat → Char → List Char → List Char
  | 0, _, _ => []
  | _ + 1, _, [] => []
  | fuel + 1, prev, c :: rest =>
    if !(isWordChar prev) then
      match matchPromoAt (c :: rest) with
      | some wl =>
        match findDotNoNl (List.drop wl (c :: rest)) with
        | some afterDot => promoSubAux fuel '.' afterDot
        | none => c :: promoSubAux fuel c rest
      | none => c :: promoSubAux fuel c rest
    else c :: promoSubAux fuel c rest

/-- `re.sub(r'\b(?:please|subscribe|share|comment|like)\b.*?\.', '', text, flags=re.IGNORECASE)`. -/
def promoSub (cs : List Char) : List Char := promoSubAux cs.length ' ' cs

/-- Terminal punctuation of the sentence splitter. -/
def isTermPunct (c : Char) : Bool := c == '.' || c == '!' || c == '?'

/-- Scan of `re.split(r'(?<=[.!?])\s+', text)`: a maximal whitespace run
preceded by terminal punctuation separates sentences.  `prev` is the
character before the scan position (a space stands for the start). -/
def sentSplitAux : Nat → Char → List Char → List Char → List String
  | 0, _, accRev, _ => [String.mk accRev.reverse]
  | _ + 1, _, accRev, [] => [String.mk accRev.reverse]
  | fuel + 1, prev, accRev, c :: rest =>
    if pyIsSpace c && isTermPunct prev then
      String.mk accRev.reverse :: sentSplitAux fuel ' ' [] (rest.dropWhile pyIsSpace)
    else sentSplitAux fuel c (c :: accRev) rest

/-- `re.split(r'(?<=[.!?])\s+', text)`. -/
def pySentSplit (s : String) : List String :=
  sentSplitAux s.toList.length ' ' [] s.toList

/-- A node of the parsed HTML document: an element with its tag name and raw
attribute list, or a text node. -/
inductive NodeKind where
  | element (tag : String) (attrs : List (String × String))
  | textNode (s : String)
deriving DecidableEq, Repr

/-- A DOM node together with its position (the child-index path from the
document root), which serves as the node identity BeautifulSoup gets from
object references. -/
structure DomNode where
  path : List Nat
  kind : NodeKind
deriving DecidableEq, Repr

/-- The parsed document: all nodes listed in document (pre-)order.  The soup
root itself is not a row; a top-level node's parent path is `[]`. -/
abbrev Dom := List DomNode

/-- Is the first path the position of an ancestor-or-self of the second? -/
def pathLe : List Nat → List Nat → Bool
  | [], _ => true
  | _ :: _, [] => false
  | a :: xs, b :: ys => a == b && pathLe xs ys

/-- The CSS selector forms `app.py` uses: a tag name, a class (`.c`), an
exact attribute match (`[role="main"]`), an attribute-substring match
(`[class*="content"]`), or an id (`#i`). -/
inductive Sel where
  | tagSel (t : String)
  | classSel (c : String)
  | attrEq (a v : String)
  | attrHas (a v : String)
  | idSel (i : String)
deriving DecidableEq, Repr

/-- First value of an attribute, as BeautifulSoup keeps it. -/
def attrVal (attrs : List (String × String)) (name : String) : Option String :=
  ((attrs.filter (fun p => p.1 == name)).head?).map (fun p => p.2)

/-- Split an attribute value on whitespace (the class list of a node). -/
def splitWsRec : List Char → List Char → List String
  | acc, [] => if acc.isEmpty then [] else [String.mk acc.reverse]
  | acc, c :: rest =>
    if pyIsSpace c then
      if acc.isEmpty then splitWsRec [] rest
      else String.mk acc.reverse :: splitWsRec [] rest
    else splitWsRec (c :: acc) rest

/-- The whitespace-separated classes of a class attribute value. -/
def classList (s : String) : List String := splitWsRec [] s.toList

/-- CSS matching for the selector forms above (elements only). -/
def matchesSel : Sel → NodeKind → Bool
  | _, .textNode _ => false
  | .tagSel t, .element tag _ => tag == t
  | .classSel c, .element _ attrs => (classList ((attrVal attrs "class").getD "")).contains c
  | .attrEq a v, .element _ attrs => (attrVal attrs a) == some v
  | .attrHas a v, .element _ attrs =>
    match attrVal attrs a with
    | some s => strContains s v
    | none => false
  | .idSel i, .element _ attrs => (attrVal attrs "id") == some i

/-- The noise selectors whose subtrees `fetch_full_article` decomposes before
any content search. -/
def noise_selectors : List Sel :=
  [.tagSel "script", .tagSel "style", .tagSel "nav", .tagSel "footer",
   .tagSel "aside", .tagSel "header",
   .classSel "advertisement", .classSel "ad", .classSel "popup",
   .classSel "modal", .classSel "newsletter",
   .classSel "social-share", .classSel "comments", .classSel "related-articles"]

/-- The ordered content selectors of `fetch_full_article`. -/
def content_selectors : List Sel :=
  [.tagSel "article", .tagSel "main", .attrEq "role" "main",
   .classSel "article-content", .classSel "story-content", .classSel "post-content",
   .classSel "entry-content", .classSel "content__article-body", .classSel "article__body",
   .classSel "article-text", .classSel "post-body", .classSel "story-body",
   .attrHas "class" "content", .attrHas "class" "article", .attrHas "class" "story",
   .idSel "article", .idSel "content", .idSel "main-content"]

/-- `element.decompose()` over the noise selectors: a node survives exactly
when no ancestor-or-self matches a noise selector (removing whole matched
subtrees in any order gives the same surviving set). -/
def stripNoise (dom : Dom) : Dom :=
  dom.filter (fun n =>
    !(dom.any (fun a => pathLe a.path n.path && noise_selectors.any (fun s => matchesSel s a.kind))))

/-- The selector cascade: the first selector with any match wins and its
first match (in document order) is the content node, identified by path. -/
def selectFirst (dom : Dom) : List Sel → Option (List Nat)
  | [] => none
  | s :: ss =>
    match (dom.filter (fun n => matchesSel s n.kind)).head? with
    | some n => some n.path
    | none => selectFirst dom ss

/-- `soup.find_all('p')` in document order. -/
def pRows (dom : Dom) : List DomNode :=
  dom.filter (fun n =>
    match n.kind with
    | .element t _ => t == "p"
    | _ => false)

/-- Add one parent path to the tally, keeping first-insertion order (the
insertion order of a Python dict). -/
def tallyAdd : List (List Nat × Nat) → List Nat → List (List Nat × Nat)
  | [], p => [(p, 1)]
  | (q, n) :: rest, p =>
    if q == p then (q, n + 1) :: rest else (q, n) :: tallyAdd rest p

/-- Group the paragraph parent paths with their counts, in first-seen order. -/
def tallyPaths (ps : List (List Nat)) : List (List Nat × Nat) :=
  ps.foldl tallyAdd []

/-- Python `max(..., key=len)`: the first entry with the greatest count. -/
def firstMaxAux : List Nat → Nat → List (List Nat × Nat) → List Nat
  | bestP, _, [] => bestP
  | bestP, bestN, (q, m) :: rest =>
    if m > bestN then firstMaxAux q m rest else firstMaxAux bestP bestN rest

/-- The density fallback of `fetch_full_article`: when more than 3 paragraphs
exist, group them by their direct parent (`p.find_parent()`) and pick the
parent with the most paragraphs. -/
def densityFallback (dom : Dom) : Option (List Nat) :=
  let paragraphs := pRows dom
  if paragraphs.length > 3 then
    match tallyPaths (paragraphs.map (fun n => n.path.dropLast)) with
    | [] => none
    | (p, n) :: rest => some (firstMaxAux p n rest)
  else none

/-- The tags whose text `fetch_full_article` collects from the content node. -/
def textTags : List String := ["p", "h1", "h2", "h3", "li"]

/-- Is the row a paragraph/heading/list-item element? -/
def isTextTagRow (n : DomNode) : Bool :=
  match n.kind with
  | .element t _ => textTags.contains t
  | _ => false

/-- `content.find_all(['p','h1','h2','h3','li'])`: the strict descendants of
the content path with one of the text tags, in document order. -/
def textTagNodesUnder (dom : Dom) (q : List Nat) : List DomNode :=
  dom.filter (fun n => pathLe q n.path && n.path != q && isTextTagRow n)

/-- Is the row a text node? -/
def isTextRow (n : DomNode) : Bool :=
  match n.kind with
  | .textNode _ => true
  | _ => false

/-- The string carried by a text row. -/
def rowText (n : DomNode) : String :=
  match n.kind with
  | .textNode s => s
  | _ => ""

/-- `node.get_text()`: concatenate, in document order, the text nodes at or
below the given path. -/
def getTextAt (dom : Dom) (r : List Nat) : String :=
  String.join ((dom.filter (fun n => pathLe r n.path && isTextRow n)).map rowText)

/-- The boilerplate markers of the fragment filter in `fetch_full_article`. -/
def boilerMarkers : List String :=
  ["advertisement", "related:", "read more:", "share this:",
   "subscribe", "newsletter", "comment", "sponsored"]

/-- The fragment filter of `fetch_full_article`, applied to each stripped
fragment: `len(text) > 30 and not any(prefix in text.lower() for prefix in
[...])` — note the Python membership test is a substring test. -/
def keepFragment (t : String) : Bool :=
  t.length > 30 && !(boilerMarkers.any (fun m => strContains (lowerStr t) m))

/-- `fetch_full_article(url)` after the network fetch: `rawLen` is the byte
length of `response.content` and `dom` the parsed document.  Returns the
cleaned article text, or `none` for every failure (the code's `None`). -/
def fetch_full_article (rawLen : Nat) (dom : Dom) : Option String :=
  if rawLen < 1000 then none
  else
    let soup := stripNoise dom
    let contentPath :=
      match selectFirst soup content_selectors with
      | some p => some p
      | none => densityFallback soup
    match contentPath with
    | none => none
    | some cpath =>
      let texts :=
        ((textTagNodesUnder soup cpath).map (fun n => pyStrip (getTextAt soup n.path))).filter
          keepFragment
      let text0 := if texts.isEmpty then getTextAt soup cpath else String.intercalate "\n" texts
      let cleaned := pyStrip (String.mk (promoSub (adSub (collapseWs text0.toList))))
      if cleaned.length > 200 then some cleaned else none

/-- A decoded JSON value (the result of `json.loads`). -/
inductive Json where
  | jnull
  | jbool (b : Bool)
  | jnum (q : Rat)
  | jstr (s : String)
  | jarr (xs : List Json)
  | jobj (kvs : List (String × Json))

/-- JSON whitespace. -/
def jsonWsChar (c : Char) : Bool :=
  c == ' ' || c == '\t' || c == '\n' || c == '\r'

/-- Skip JSON whitespace. -/
def skipJsonWs (cs : List Char) : List Char := cs.dropWhile jsonWsChar

/-- The simple escape sequences of a JSON string literal, as a table from
the escape letter to the character it stands for. -/
def escPairs : List (Char × Char) :=
  [('"', '"'), ('\\', '\\'), ('/', '/'), ('n', '\n'),
   ('t', '\t'), ('r', '\r'), ('b', '\x08'), ('f', '\x0c')]

/-- Translate one escape letter (`\uXXXX` is outside the modelled subset). -/
def escChar (c : Char) : Option Char :=
  ((escPairs.filter (fun p => p.1 == c)).head?).map (fun p => p.2)

/-- Parse the body of a JSON string literal (after the opening quote); yields
the characters and the remaining input.  `\uXXXX` escapes are outside the
modelled subset. -/
def parseStrAux : List Char → Option (List Char × List Char)
  | [] => none
  | c :: rest =>
    if c == '"' then some ([], rest)
    else if c == '\\' then
      match rest with
      | [] => none
      | e :: rest2 =>
        match escChar e with
        | some ec => (parseStrAux rest2).map (fun p => (ec :: p.1, p.2))
        | none => none
    else (parseStrAux rest).map (fun p => (c :: p.1, p.2))

/-- The value of a digit run. -/
def digitsToNat (ds : List Char) : Nat :=
  ds.foldl (fun n c => n * 10 + (c.toNat - 48)) 0

/-- Parse a JSON number (optional minus, digits, optional fraction, optional
exponent), as an exact rational. -/
def parseNum (cs : List Char) : Option (Rat × List Char) :=
  let (neg, cs1) :=
    match cs with
    | '-' :: t => (true, t)
    | _ => (false, cs)
  let intDs := cs1.takeWhile Char.isDigit
  let cs2 := cs1.dropWhile Char.isDigit
  if intDs.isEmpty then none
  else
    let (fracDs, cs3) :=
      match cs2 with
      | '.' :: t => (t.takeWhile Char.isDigit, t.dropWhile Char.isDigit)
      | _ => ([], cs2)
    if cs2.head? == some '.' && fracDs.isEmpty then none
    else
      let mant : Nat := digitsToNat intDs * 10 ^ fracDs.length + digitsToNat fracDs
      let parseExp : List Char → Option (Int × List Char) := fun t =>
        let (eneg, t1) :=
          match t with
          | '-' :: u => (true, u)
          | '+' :: u => (false, u)
          | _ => (false, t)
        let eDs := t1.takeWhile Char.isDigit
        if eDs.isEmpty then none
        else some ((if eneg then -(digitsToNat eDs : Int) else (digitsToNat eDs : Int)),
                   t1.dropWhile Char.isDigit)
      let finish : Int → List Char → Option (Rat × List Char) := fun e rest =>
        let totalE : Int := e - (fracDs.length : Int)
        let q : Rat :=
          if 0 ≤ totalE then mkRat ((mant : Int) * (10 ^ totalE.toNat : Int)) 1
          else mkRat (mant : Int) (10 ^ (-totalE).toNat)
        some ((if neg then -q else q), rest)
      match cs3 with
      | 'e' :: t =>
        match parseExp t with
        | some (e, rest) => finish e rest
        | none => none
      | 'E' :: t =>
        match parseExp t with
        | some (e, rest) => finish e rest
        | none => none
      | _ => finish 0 cs3

/-- Parser mode: a whole value, the tail of an array, or the tail of an
object (with the members read so far). -/
inductive PMode where
  | value
  | arrRest (acc : List Json)
  | objRest (acc : List (String × Json))

/-- Recursive-descent JSON parsing; the fuel is an upper bound on the number
of steps (one unit per recursive call, each of which consumes input). -/
def parseAux : Nat → PMode → List Char → Option (Json × List Char)
  | 0, _, _ => none
  | fuel + 1, .value, cs0 =>
    match skipJsonWs cs0 with
    | [] => none
    | c :: rest =>
      if c == 'n' then
        match rest with
        | 'u' :: 'l' :: 'l' :: r => some (.jnull, r)
        | _ => none
      else if c == 't' then
        match rest with
        | 'r' :: 'u' :: 'e' :: r => some (.jbool true, r)
        | _ => none
      else if c == 'f' then
        match rest with
        | 'a' :: 'l' :: 's' :: 'e' :: r => some (.jbool false, r)
        | _ => none
      else if c == '"' then
        (parseStrAux rest).map (fun p => (.jstr (String.mk p.1), p.2))
      else if c == '[' then
        match skipJsonWs rest with
        | ']' :: r => some (.jarr [], r)
        | cs1 =>
          match parseAux fuel .value cs1 with
          | some (j, cs2) => parseAux fuel (.arrRest [j]) cs2
          | none => none
      else if c == '\x7b' then
        match skipJsonWs rest with
        | '\x7d' :: r => some (.jobj [], r)
        | cs1 => parseAux fuel (.objRest []) ('\x7b' :: cs1)
      else if c == '-' || c.isDigit then
        (parseNum (c :: rest)).map (fun p => (Json.jnum p.1, p.2))
      else none
  | fuel + 1, .arrRest acc, cs0 =>
    match skipJsonWs cs0 with
    | ']' :: r => some (.jarr acc, r)
    | ',' :: cs1 =>
      match parseAux fuel .value cs1 with
      | some (j, cs2) => parseAux fuel (.arrRest (acc ++ [j])) cs2
      | none => none
    | _ => none
  | fuel + 1, .objRest acc, cs0 =>
    match skipJsonWs cs0 with
    | sep :: cs1 =>
      if (sep == '\x7b' && acc.isEmpty) || sep == ',' then
        match skipJsonWs cs1 with
        | '"' :: cs2 =>
          match parseStrAux cs2 with
          | some (key, cs3) =>
            match skipJsonWs cs3 with
            | ':' :: cs4 =>
              match parseAux fuel .value cs4 with
              | some (v, cs5) => parseAux fuel (.objRest (acc ++ [(String.mk key, v)])) cs5
              | none => none
            | _ => none
          | none => none
        | _ => none
      else if sep == '\x7d' then some (.jobj acc, cs1)
      else none
    | [] => none

/-- `json.loads`: the whole string must be one JSON value, up to surrounding
whitespace. -/
def jsonLoads (s : String) : Option Json :=
  match parseAux (s.length + 2) .value s.toList with
  | some (j, rest) => if (skipJsonWs rest).isEmpty then some j else none
  | none => none

/-- Python `dict.get` on a decoded object: with duplicate keys `json.loads`
keeps the last occurrence. -/
def objGet (kvs : List (String × Json)) (k : String) : Option Json :=
  ((kvs.filter (fun p => p.1 == k)).getLast?).map (fun p => p.2)

/-- Python `float(str)`: optional surrounding whitespace, then a decimal
number consuming the whole string (`inf`/`nan` are outside the modelled
subset). -/
def pyFloatOfString (s : String) : Option Rat :=
  match parseNum (pyStrip s).toList with
  | some (q, []) => some q
  | _ => none

/-- Python `float(x)` on a decoded JSON value: numbers pass through, booleans
coerce to 1/0, numeric strings parse; anything else raises (modelled as
`none`). -/
def pyFloatOfJson : Json → Option Rat
  | .jnum q => some q
  | .jbool b => some (if b then mkRat 1 1 else mkRat 0 1)
  | .jstr s => pyFloatOfString s
  | _ => none

/-- `re.search(r'\{.*\}', result, re.DOTALL)`: with DOTALL the leftmost
greedy match runs from the first opening brace to the last closing brace.
When there is a match the code replaces `result` with it, otherwise
`result` is left unchanged. -/
def braceCandidate (s : String) : String :=
  let cs := s.toList
  match cs.findIdx? (fun c => c == '\x7b'), (cs.reverse).findIdx? (fun c => c == '\x7d') with
  | some i, some rj =>
    let j := cs.length - 1 - rj
    if i < j then String.mk ((cs.drop i).take (j - i + 1)) else s
  | _, _ => s

/-- The body of the `try` block of `analyze_sentiment` after `json.loads`
succeeds: read `sentiment` (default `"neutral"`), lowercase it, coerce
`confidence` (default 0.5) with `float`, validate the label.  `none` models
the exceptions (`AttributeError`/`TypeError`/`ValueError`) the generic
handler turns into `("neutral", 0.5)`. -/
def sentimentFromJson : Json → Option (String × Rat)
  | .jobj kvs =>
    match (objGet kvs "sentiment").getD (.jstr "neutral") with
    | .jstr s =>
      let sentiment := lowerStr s
      match pyFloatOfJson ((objGet kvs "confidence").getD (.jnum (mkRat 1 2))) with
      | some conf =>
        some ((if (["positive", "negative", "neutral"] : List String).contains sentiment
               then sentiment else "neutral"), conf)
      | none => none
    | _ => none
  | _ => none

/-- The positive keywords of the sentiment fallback. -/
def positiveWords : List String :=
  ["positive", "optimistic", "favorable", "good", "great", "excellent", "bullish"]

/-- The negative keywords of the sentiment fallback. -/
def negativeWords : List String :=
  ["negative", "pessimistic", "unfavorable", "bad", "poor", "terrible", "bearish"]

/-- The keyword fallback of `analyze_sentiment`, run on the text that failed
to decode as JSON (`text_lower = result.lower()`). -/
def keywordSentiment (t : String) : String × Rat :=
  let tl := lowerStr t
  if positiveWords.any (fun w => strContains tl w) then ("positive", mkRat 7 10)
  else if negativeWords.any (fun w => strContains tl w) then ("negative", mkRat 7 10)
  else ("neutral", mkRat 1 2)

/-- `analyze_sentiment(text)`: `resp` is the Groq response (`none` for every
client failure, and the empty string is falsy like `None`).  On a response,
the candidate JSON substring is extracted, decoded, and interpreted;
`json.JSONDecodeError` triggers the keyword fallback on the candidate, any
other exception yields `("neutral", 0.5)`. -/
def analyze_sentiment (text : String) (resp : Option String) : String × Rat :=
  if pyStrip text == "" then ("neutral", mkRat 1 2)
  else
    match resp with
    | none => ("neutral", mkRat 1 2)
    | some result0 =>
      if result0 == "" then ("neutral", mkRat 1 2)
      else
        let result := braceCandidate result0
        match jsonLoads result with
        | some j => (sentimentFromJson j).getD ("neutral", mkRat 1 2)
        | none => keywordSentiment result

/-- The confidence `analyze_sentiment` would read out of a successfully
decoded response, when there is one (used to state how the parsed value is
passed through unclamped). -/
def respConfidence : Option String → Option Rat
  | none => none
  | some r =>
    if r == "" then none
    else
      match jsonLoads (braceCandidate r) with
      | some j => (sentimentFromJson j).map (fun p => p.2)
      | none => none

/-- The boilerplate words of the fallback inside `summarize_text`. -/
def aiBoilerWords : List String := ["subscribe", "share", "comment"]

/-- The extractive fallback of `summarize_text`, built when the Groq call
yields nothing: split into sentences, keep sentences whose stripped length
exceeds 20 and which contain no boilerplate word, join the first five. -/
def summaryFallbackAI (text : String) : String :=
  let sentences := pySentSplit text
  let meaningful :=
    (sentences.filter (fun s =>
      (pyStrip s).length > 20 && !(aiBoilerWords.any (fun w => strContains (lowerStr s) w)))).map
      pyStrip
  if !meaningful.isEmpty then
    "⚠️ AI summary unavailable. Key information from the article: "
      ++ String.intercalate " " (meaningful.take 5)
  else
    "⚠️ Could not generate summary. The article content may be inaccessible or formatted unusually."

/-- `summarize_text(text, title)`: `resp` is the Groq response; `none` and
the falsy empty string both trigger the extractive fallback.  The title only
shapes the prompt, never the result. -/
def summarize_text (text title : String) (resp : Option String) : String :=
  if pyStrip text == "" then "No text to summarize"
  else
    match resp with
    | none => summaryFallbackAI text
    | some s => if s == "" then summaryFallbackAI text else s

/-- The boilerplate words of the second fallback inside the `/summarize`
route (it adds `read more`). -/
def routeBoilerWords : List String := ["subscribe", "share", "comment", "read more"]

/-- The enhanced fallback the route builds when the summarizer's answer is
missing or carries the AI-unavailable disclaimer: sentences with stripped
length over 30 and no boilerplate word, at least 3 of them, first 5 joined. -/
def routeFallback (text : String) : String :=
  let sentences := pySentSplit text
  let meaningful :=
    (sentences.filter (fun s =>
      (pyStrip s).length > 30 && !(routeBoilerWords.any (fun w => strContains (lowerStr s) w)))).map
      pyStrip
  if !meaningful.isEmpty && meaningful.length ≥ 3 then
    "Key points from the article: " ++ String.intercalate " " (meaningful.take 5)
  else
    "Comprehensive summary unavailable. The article content may be inaccessible or formatted unusually. Please try another article."

/-- The JSON response of the `/summarize` route: an error body with its HTTP
status, or the success payload (the code serializes the confidence with
`str`; the rational itself is kept here). -/
inductive HttpResult where
  | err (msg : String) (code : Nat)
  | ok (summary sentiment : String) (confidence : Rat) (usedFullArticle : Bool)
deriving DecidableEq, Repr

/-- The summary field a caller sees (the error message for error bodies). -/
def HttpResult.summaryText : HttpResult → String
  | .err m _ => m
  | .ok s _ _ _ => s

/-- Is the response a hard (error-status) failure? -/
def HttpResult.isErr : HttpResult → Bool
  | .err _ _ => true
  | .ok _ _ _ _ => false

/-- `full_article_text if full_article_text else preview_text`: Python
truthiness makes `Some ""` fall back to the preview too. -/
def selectedText (fullArticle : Option String) (preview : String) : String :=
  match fullArticle with
  | some t => if t == "" then preview else t
  | none => preview

/-- `bool(full_article_text)`. -/
def fullTruthy (fullArticle : Option String) : Bool :=
  match fullArticle with
  | some t => t != ""
  | none => false

/-- The disclaimer the route prepends when the full article was unavailable. -/
def unavailableNote : String :=
  "⚠️ Note: Full article content was unavailable. This summary is based on the preview text only.\n\n"

/-- The `/summarize` route.  `jsonData` is `request.get_json()` collapsed to
the three fields the code reads (each defaulting to `""`); `groqKey` is
`bool(GROQ_API_KEY)`; `fullArticle` is the outcome of `fetch_full_article`;
`summaryResp`/`sentimentResp` are the two Groq responses.  The catch-all
`except` of the route has no reachable failure in this embedding, so the
result is exactly the body's response. -/
def summarize (jsonData : Option (String × String × String)) (groqKey : Bool)
    (fullArticle : Option String) (summaryResp sentimentResp : Option String) : HttpResult :=
  match jsonData with
  | none => .err "No JSON data provided" 400
  | some (article_url, preview_text, title) =>
    if article_url == "" then .err "No article URL provided" 400
    else if !groqKey then
      .err "Groq API key is not configured. Please check your environment variables." 500
    else
      let text_to_summarize := selectedText fullArticle preview_text
      if text_to_summarize == "" || pyStrip text_to_summarize == "" then
        .err "No text content available to summarize" 400
      else
        let notePart := if !(fullTruthy fullArticle) then unavailableNote else ""
        let summary0 := summarize_text text_to_summarize title summaryResp
        let summary :=
          if summary0 == "" || strContains summary0 "⚠️ AI summary unavailable" then
            routeFallback text_to_summarize
          else summary0
        let sr := analyze_sentiment text_to_summarize sentimentResp
        .ok (notePart ++ summary) sr.1 sr.2 (fullTruthy fullArticle)

/-- The fragment filter as C4 words it (refinement reading of the spec):
fragments longer than 30 characters whose lowercase form does not start with
a boilerplate marker. -/
def keepFragmentSpecStart (t : String) : Bool :=
  t.length > 30 && !(boilerMarkers.any (fun m => listHasPre m.toList (lowerStr t).toList))

/-- Article text of the C3 counterexample: a promotional imperative sentence
sits between two single spaces, so the third cleanup pattern removes it and
leaves two adjacent spaces. -/
def c3text : String :=
  "The committee approved the measure after a long debate over funding and oversight. Lawmakers from several regions described the plan as a careful balance between growth and caution. The final vote happened late in the evening please applaud now. and the bill moved to the upper chamber for review."

/-- A page whose only content is one `article > p` holding `c3text`. -/
def c3dom : Dom :=
  [⟨[0], .element "article" []⟩,
   ⟨[0, 0], .element "p" []⟩,
   ⟨[0, 0, 0], .textNode c3text⟩]

/-- The text extracted from `c3dom`. -/
def c3out : String := (fetch_full_article 5000 c3dom).getD ""

/-- A page with two long paragraphs and nothing a content selector matches:
the density fallback must not run. -/
def c10dom : Dom :=
  [⟨[0], .element "div" []⟩,
   ⟨[0, 0], .element "p" []⟩,
   ⟨[0, 0, 0], .textNode "This paragraph holds plenty of text but there are only two paragraphs in the page so the density fallback must not run at all, no matter how much text is here."⟩,
   ⟨[0, 1], .element "p" []⟩,
   ⟨[0, 1, 0], .textNode "Second long paragraph with lots of text that still must not rescue extraction because the paragraph count is too small for the fallback."⟩]

/-- Preview text of the C9 counterexample: every sentence carries the
disclaimer phrase, so the route's replacement reintroduces it. -/
def advPreview : String :=
  "The page kept showing ⚠️ AI summary unavailable banners to visitors. The editor wrote that ⚠️ AI summary unavailable appeared twice in testing. Users reported the phrase ⚠️ AI summary unavailable on many devices."

/-- Preview text of the C9 witness: three plain sentences over 30 characters. -/
def p9Preview : String :=
  "The council approved a new budget for the coming fiscal year. Local schools will receive additional funding for repairs. Transit projects gained support from regional planners."

/-- Text of the C6 witness: six sentences over 20 characters, none with a
boilerplate word. -/
def c6text : String :=
  "The mayor opened the new bridge on Monday morning. Hundreds of residents crossed within the first hour. Officials said the project finished under budget. Engineers praised the innovative cable design. Local businesses expect a rise in weekend visitors. City planners already study a second crossing."

/-- The C4 failing fragment: longer than 30 characters, no marker at its
start, the marker `comment` only in its interior. -/
def c4frag : String := "The official declined to comment when reporters asked."

/-- The C1 counterexample response: well-formed JSON whose confidence is 2.0. -/
def c1resp : String := "\x7b\"sentiment\": \"positive\", \"confidence\": 2.0\x7d"

/-- The C7 counterexample response: an undecodable brace-delimited candidate,
with the word `bearish` outside the braces only. -/
def c7resp : String := "\x7boops\x7d overall bearish outlook"

theorem toList_mk (l : List Char) : (String.mk l).toList = l := rfl

theorem listHasPre_iff (n h : List Char) : listHasPre n h = true ↔ n <+: h := by
  induction n generalizing h with
  | nil => simp [listHasPre]
  | cons a xs ih =>
    cases h with
    | nil => simp [listHasPre]
    | cons b ys =>
      simp [listHasPre, Bool.and_eq_true, beq_iff_eq, ih, List.cons_prefix_cons]

theorem listHasSub_iff (n h : List Char) : listHasSub n h = true ↔ n <:+: h := by
  induction h with
  | nil => simp [listHasSub, listHasPre_iff]
  | cons b t ih =>
    simp [listHasSub, listHasPre_iff, ih, List.infix_cons_iff]

theorem strContains_iff (hay needle : String) :
    strContains hay needle = true ↔ needle.toList <:+: hay.toList := by
  simp [strContains, listHasSub_iff]

theorem boilerPred_eq (minLen : Nat) (ws : List String) (s : String) :
    ((pyStrip s).length > minLen && !(ws.any (fun w => strContains (lowerStr s) w)))
      = decide (minLen < (pyStrip s).length ∧ ∀ w ∈ ws, ¬ w.toList <:+: (lowerStr s).toList) := by
  rw [Bool.eq_iff_iff]
  simp [List.any_eq_true, strContains_iff]

theorem mem_of_dropWhile {p : Char → Bool} {l : List Char} {c : Char}
    (h : c ∈ l.dropWhile p) : c ∈ l := by
  induction l with
  | nil => exact h
  | cons a t ih =>
    rw [List.dropWhile_cons] at h
    split at h
    · exact List.mem_cons_of_mem a (ih h)
    · exact h

theorem mem_of_findDot {l l2 : List Char} {c : Char}
    (h : findDotNoNl l = some l2) (hc : c ∈ l2) : c ∈ l := by
  induction l generalizing l2 with
  | nil => simp [findDotNoNl] at h
  | cons a t ih =>
    rw [findDotNoNl] at h
    split at h
    · cases h; exact List.mem_cons_of_mem a hc
    · split at h
      · simp at h
      · exact List.mem_cons_of_mem a (ih h hc)

theorem mem_of_adSubAux {fuel : Nat} {l : List Char} {c : Char}
    (h : c ∈ adSubAux fuel l) : c ∈ l := by
  induction fuel generalizing l with
  | zero => simp [adSubAux] at h
  | succ n ih =>
    cases l with
    | nil => simp [adSubAux] at h
    | cons a t =>
      rw [adSubAux] at h
      split at h
      · split at h
        · next afterDot hdot =>
          have h1 : c ∈ afterDot := mem_of_dropWhile (ih h)
          exact List.drop_subset 13 (a :: t) (mem_of_findDot hdot h1)
        · rcases List.mem_cons.mp h with h | h
          · exact h ▸ List.mem_cons_self a t
          · exact List.mem_cons_of_mem a (ih h)
      · rcases List.mem_cons.mp h with h | h
        · exact h ▸ List.mem_cons_self a t
        · exact List.mem_cons_of_mem a (ih h)

theorem mem_of_promoSubAux {fuel : Nat} {prev : Char} {l : List Char} {c : Char}
    (h : c ∈ promoSubAux fuel prev l) : c ∈ l := by
  induction fuel generalizing prev l with
  | zero => simp [promoSubAux] at h
  | succ n ih =>
    cases l with
    | nil => simp [promoSubAux] at h
    | cons a t =>
      rw [promoSubAux] at h
      split at h
      · split at h
        · next wl hwl =>
          split at h
          · next afterDot hdot =>
            exact List.drop_subset wl (a :: t) (mem_of_findDot hdot (ih h))
          · rcases List.mem_cons.mp h with h | h
            · exact h ▸ List.mem_cons_self a t
            · exact List.mem_cons_of_mem a (ih h)
        · rcases List.mem_cons.mp h with h | h
          · exact h ▸ List.mem_cons_self a t
          · exact List.mem_cons_of_mem a (ih h)
      · rcases List.mem_cons.mp h with h | h
        · exact h ▸ List.mem_cons_self a t
        · exact List.mem_cons_of_mem a (ih h)

theorem collapseAux_space {fuel : Nat} {l : List Char} {c : Char}
    (h : c ∈ collapseAux fuel l) (hs : pyIsSpace c = true) : c = ' ' := by
  induction fuel generalizing l with
  | zero => simp [collapseAux] at h
  | succ n ih =>
    cases l with
    | nil => simp [collapseAux] at h
    | cons a t =>
      rw [collapseAux] at h
      split at h
      · rcases List.mem_cons.mp h with h | h
        · exact h
        · exact ih h
      · next hns =>
        rcases List.mem_cons.mp h with h | h
        · exact absurd (h ▸ hs) (by simpa using hns)
        · exact ih h

theorem cleaned_space_chars (cs : List Char) (c : Char)
    (h : c ∈ (pyStrip (String.mk (promoSub (adSub (collapseWs cs))))).toList)
    (hs : pyIsSpace c = true) : c = ' ' := by
  rw [pyStrip, toList_mk, toList_mk] at h
  rw [List.mem_reverse] at h
  have h1 := mem_of_dropWhile h
  rw [List.mem_reverse] at h1
  have h2 := mem_of_dropWhile h1
  exact collapseAux_space (mem_of_adSubAux (mem_of_promoSubAux h2)) hs

theorem sentimentFromJson_label {j : Json} {p : String × Rat}
    (h : sentimentFromJson j = some p) :
    p.1 ∈ (["positive", "negative", "neutral"] : List String) := by
  cases j with
  | jobj kvs =>
    rw [sentimentFromJson] at h
    split at h
    · next s hs =>
      split at h
      · next conf hconf =>
        cases h
        by_cases hc : (["positive", "negative", "neutral"] : List String).contains (lowerStr s) = true
        · simp only [hc, if_true]
          exact List.mem_of_elem_eq_true hc
        · rw [if_neg hc]
          simp
      · simp at h
    · simp at h
  | jnull => simp [sentimentFromJson] at h
  | jbool b => simp [sentimentFromJson] at h
  | jnum q => simp [sentimentFromJson] at h
  | jstr s => simp [sentimentFromJson] at h
  | jarr xs => simp [sentimentFromJson] at h

/-- C5: for every raw HTTP response body smaller than 1000 bytes, extraction
returns Failure (`None`) without attempting any content search: the result
is `none` uniformly in the parsed document. -/
theorem small_response_rejected (rawLen : Nat) (dom : Dom) (h : rawLen < 1000) :
    fetch_full_article rawLen dom = none := by
  unfold fetch_full_article
  rw [if_pos h]

theorem small_response_rejected_w :
    fetch_full_article 999 c10dom = none ∧ fetch_full_article 0 [] = none :=
  ⟨small_response_rejected 999 c10dom (by decide), small_response_rejected 0 [] (by decide)⟩

/-- C10: when no content selector matches and the noise-stripped document
has at most 3 paragraph elements, extraction returns Failure no matter how
much text those paragraphs hold (the density fallback needs more than 3). -/
theorem few_paragraphs_no_fallback (rawLen : Nat) (dom : Dom)
    (h1 : selectFirst (stripNoise dom) content_selectors = none)
    (h2 : (pRows (stripNoise dom)).length ≤ 3) :
    fetch_full_article rawLen dom = none := by
  unfold fetch_full_article
  split
  · rfl
  · simp only [h1, densityFallback]
    rw [if_neg (show ¬(pRows (stripNoise dom)).length > 3 by omega)]

theorem few_paragraphs_no_fallback_w :
    fetch_full_article 5000 c10dom = none :=
  few_paragraphs_no_fallback 5000 c10dom (by decide) (by decide)

set_option maxHeartbeats 1000000 in
/-- C3 (amended): every extraction success has length strictly greater than
200 and every whitespace character in it is a plain space; runs of more than
one space can remain where the promotional-sentence pattern removed a match
between two spaces. -/
theorem extraction_success_shape (rawLen : Nat) (dom : Dom) (t : String)
    (h : fetch_full_article rawLen dom = some t) :
    200 < t.length ∧ ∀ c ∈ t.toList, pyIsSpace c = true → c = ' ' := by
  simp only [fetch_full_article] at h
  split at h
  · exact absurd h (by simp)
  · split at h
    · exact absurd h (by simp)
    · split at h <;>
        (split at h
         · next hlen =>
           cases h
           exact ⟨hlen, fun c hc hs => cleaned_space_chars _ c hc hs⟩
         · exact absurd h (by simp))

set_option maxRecDepth 40000 in
set_option maxHeartbeats 2000000 in
theorem extraction_success_shape_w :
    fetch_full_article 5000 c3dom = some c3out ∧ 200 < c3out.length :=
  ⟨by decide, (extraction_success_shape 5000 c3dom c3out (by decide)).1⟩

set_option maxRecDepth 40000 in
set_option maxHeartbeats 2000000 in
/-- C3 counterexample: a successful extraction whose result has length above
200 but holds two consecutive spaces, left where the promotional-sentence
pattern deleted a match sitting between two spaces. -/
theorem extraction_double_space_cex :
    (fetch_full_article 5000 c3dom).isSome = true ∧ hasWsRun c3out = true :=
  ⟨by decide, by decide⟩

/-- C8: for empty or whitespace-only input, the sentiment analyzer returns
exactly `("neutral", 0.5)`; the result is the same for every completion
response, reflecting that the client is never invoked on this path. -/
theorem empty_text_neutral (text : String) (resp : Option String)
    (h : pyStrip text = "") :
    analyze_sentiment text resp = ("neutral", mkRat 1 2) := by
  unfold analyze_sentiment
  rw [if_pos (by simp [h])]

theorem empty_text_neutral_w :
    analyze_sentiment " \t " (some "\x7b\"sentiment\": \"positive\", \"confidence\": 0.9\x7d")
      = ("neutral", mkRat 1 2) :=
  empty_text_neutral " \t " _ (by decide)

/-- C1 (amended): the sentiment label is always one of positive, negative,
neutral; the confidence is 0.5 or 0.7 on every fallback path, but when the
response decodes as a JSON object the `float` of its confidence field is
returned unclamped, so nothing keeps it inside [0, 1]. -/
theorem sentiment_result_shape (text : String) (resp : Option String) :
    (analyze_sentiment text resp).1 ∈ (["positive", "negative", "neutral"] : List String) ∧
      ((analyze_sentiment text resp).2 = mkRat 1 2 ∨ (analyze_sentiment text resp).2 = mkRat 7 10 ∨
        respConfidence resp = some (analyze_sentiment text resp).2) := by
  by_cases hstrip : (pyStrip text == "") = true
  · simp [analyze_sentiment, hstrip]
  · cases resp with
    | none => simp [analyze_sentiment, hstrip]
    | some r =>
      by_cases hr : (r == "") = true
      · simp [analyze_sentiment, hstrip, hr]
      · cases hj : jsonLoads (braceCandidate r) with
        | none =>
          simp only [analyze_sentiment, if_neg hstrip, if_neg hr, hj]
          simp only [keywordSentiment]
          split
          · simp
          · split
            · simp
            · simp
        | some j =>
          simp only [analyze_sentiment, if_neg hstrip, if_neg hr, hj]
          cases hsj : sentimentFromJson j with
          | none => simp
          | some p =>
            refine ⟨by simpa [hsj] using sentimentFromJson_label hsj, Or.inr (Or.inr ?_)⟩
            have hr2 : ¬r = "" := by simpa using hr
            simp [respConfidence, hr2, hj, hsj]

/-- C1 counterexample: a decodable response whose confidence field is 2.0 is
passed through as confidence 2, outside [0, 1]. -/
theorem sentiment_confidence_unclamped_cex :
    analyze_sentiment "Markets moved sharply today." (some c1resp) = ("positive", mkRat 2 1) ∧
      ¬((mkRat 2 1 : Rat) ≤ 1) :=
  ⟨by decide, by decide⟩

/-- C7 (amended): on a JSON decode failure the keyword scan runs over the
candidate string — the brace-delimited substring when the response has one,
otherwise the raw response; if no positive keyword occurs there and
`bearish` does, the result is `("negative", 0.7)`. -/
theorem sentiment_decode_failure_keyword_scan (text r : String)
    (h1 : pyStrip text ≠ "") (h2 : r ≠ "")
    (h3 : jsonLoads (braceCandidate r) = none)
    (h4 : positiveWords.all (fun w => !(strContains (lowerStr (braceCandidate r)) w)) = true)
    (h5 : strContains (lowerStr (braceCandidate r)) "bearish" = true) :
    analyze_sentiment text (some r) = ("negative", mkRat 7 10) := by
  simp only [analyze_sentiment, if_neg (show ¬(pyStrip text == "") = true by simpa using h1),
    if_neg (show ¬(r == "") = true by simpa using h2), h3]
  simp only [keywordSentiment]
  rw [if_neg, if_pos]
  · exact List.any_eq_true.mpr ⟨"bearish", by decide, h5⟩
  · simp only [Bool.not_eq_true, List.any_eq_false]
    intro w hw
    have hx := List.all_eq_true.mp h4 w hw
    simpa using hx

theorem sentiment_decode_failure_keyword_scan_w :
    analyze_sentiment "Quarterly report." (some "totally bearish nonsense")
      = ("negative", mkRat 7 10) :=
  sentiment_decode_failure_keyword_scan "Quarterly report." "totally bearish nonsense"
    (by decide) (by decide) (by rfl) (by decide) (by decide)

/-- C7 counterexample: the response `"\x7boops\x7d overall bearish outlook"` fails to
decode and contains `bearish`, yet the scan runs over the extracted
candidate `"\x7boops\x7d"` only, so the result is `("neutral", 0.5)`, not the
`("negative", 0.7)` the claim requires. -/
theorem sentiment_raw_scan_cex :
    analyze_sentiment "Some news text." (some c7resp) = ("neutral", mkRat 1 2) ∧
      (("neutral", mkRat 1 2) : String × Rat) ≠ ("negative", mkRat 7 10) :=
  ⟨by decide, by decide⟩

/-- Bridging the code's Bool gate `not empty and length at least 3` with the
plain count condition. -/
theorem nonempty_and_ge3 (l : List String) :
    (!l.isEmpty && decide (l.length ≥ 3)) = decide (3 ≤ l.length) := by
  cases l <;> simp

/-- C6: when the completion client returns nothing, the summarizer returns
the first 5 sentences (split on terminal punctuation) whose stripped length
exceeds 20 and which contain none of subscribe/share/comment, joined with
single spaces behind the AI-unavailable disclaimer; a fixed
summary-unavailable message when no sentence survives the filter. -/
theorem summarizer_none_fallback (text title : String) (h : pyStrip text ≠ "") :
    summarize_text text title none =
      (let ms := ((pySentSplit text).filter (fun s =>
          decide (20 < (pyStrip s).length ∧
            ∀ w ∈ aiBoilerWords, ¬ w.toList <:+: (lowerStr s).toList))).map pyStrip
       if ms.isEmpty then
         "⚠️ Could not generate summary. The article content may be inaccessible or formatted unusually."
       else
         "⚠️ AI summary unavailable. Key information from the article: "
           ++ String.intercalate " " (ms.take 5)) := by
  have hfil : (pySentSplit text).filter (fun s =>
      (pyStrip s).length > 20 && !(aiBoilerWords.any (fun w => strContains (lowerStr s) w)))
      = (pySentSplit text).filter (fun s =>
      decide (20 < (pyStrip s).length ∧ ∀ w ∈ aiBoilerWords, ¬ w.toList <:+: (lowerStr s).toList)) :=
    List.filter_congr (fun s _ => boilerPred_eq 20 aiBoilerWords s)
  simp only [summarize_text, if_neg (show ¬(pyStrip text == "") = true by simpa using h),
    summaryFallbackAI, hfil]
  cases hcase : (((pySentSplit text).filter (fun s =>
      decide (20 < (pyStrip s).length ∧
        ∀ w ∈ aiBoilerWords, ¬ w.toList <:+: (lowerStr s).toList))).map pyStrip).isEmpty <;>
    simp [hcase]

set_option maxRecDepth 40000 in
set_option maxHeartbeats 2000000 in
theorem summarizer_none_fallback_w :
    summarize_text c6text "" none =
      "⚠️ AI summary unavailable. Key information from the article: The mayor opened the new bridge on Monday morning. Hundreds of residents crossed within the first hour. Officials said the project finished under budget. Engineers praised the innovative cable design. Local businesses expect a rise in weekend visitors." :=
  (summarizer_none_fallback c6text "" (by decide)).trans (by decide)

/-- C2 (amended): with a URL supplied and credentials configured, extraction
failure and completion-API unavailability alone never produce an error
response; besides a missing URL or missing key, the only hard failure is a
selected text (extracted article if any, else the preview) that is empty or
whitespace-only. -/
theorem degraded_modes_no_hard_failure (url preview title : String)
    (fullArticle summaryResp sentimentResp : Option String)
    (h1 : url ≠ "") (h2 : pyStrip (selectedText fullArticle preview) ≠ "") :
    (summarize (some (url, preview, title)) true fullArticle summaryResp sentimentResp).isErr
      = false := by
  have htext : ¬(selectedText fullArticle preview == "") = true := by
    simp only [beq_iff_eq]
    intro he
    exact h2 (by rw [he]; rfl)
  simp only [summarize, if_neg (show ¬(url == "") = true by simpa using h1)]
  rw [if_neg (by simp), if_neg (by simp [htext, show ¬(pyStrip (selectedText fullArticle preview) == "") = true by simpa using h2])]
  rfl

theorem degraded_modes_no_hard_failure_w :
    (summarize (some ("https://example.com/a", "A sensible preview sentence about the news.", "T"))
        true none none none).isErr = false :=
  degraded_modes_no_hard_failure "https://example.com/a"
    "A sensible preview sentence about the news." "T" none none none (by decide) (by decide)

/-- C2 counterexample: a request with a URL and configured credentials whose
extraction fails while the preview is empty receives a hard 400 failure,
which the claim says cannot happen. -/
theorem degraded_mode_hard_failure_cex :
    summarize (some ("https://example.com/a", "", "T")) true none none none
      = .err "No text content available to summarize" 400 := by
  decide

/-- C4: the fragment filter of `fetch_full_article` is evaluated on the
failing fragment: the spec's reading (markers only at the start) keeps it,
the code (`prefix in text.lower()`, a substring test) drops it. -/
theorem fragment_filter_interior_marker :
    keepFragmentSpecStart c4frag = true ∧ keepFragment c4frag = false :=
  ⟨by decide, by decide⟩

/-- C9 (amended): whenever the summarizer's answer is missing or carries the
AI-unavailable disclaimer, the route replaces it with its own fallback —
sentences of the selected text with stripped length over 30 containing none
of subscribe/share/comment/read more, at least 3 required, first 5 joined
behind `Key points from the article: `, else a fixed message.  The
replacement is built from the article text, so it reintroduces the
disclaimer exactly when those sentences contain it. -/
theorem route_replaces_disclaimer (url preview title : String)
    (fullArticle summaryResp sentimentResp : Option String)
    (h1 : url ≠ "")
    (h2 : pyStrip (selectedText fullArticle preview) ≠ "")
    (h3 : strContains (summarize_text (selectedText fullArticle preview) title summaryResp)
        "⚠️ AI summary unavailable" = true) :
    (summarize (some (url, preview, title)) true fullArticle summaryResp sentimentResp).summaryText
      = (if fullTruthy fullArticle then "" else unavailableNote) ++
        (let ms := ((pySentSplit (selectedText fullArticle preview)).filter (fun s =>
            decide (30 < (pyStrip s).length ∧
              ∀ w ∈ routeBoilerWords, ¬ w.toList <:+: (lowerStr s).toList))).map pyStrip
         if 3 ≤ ms.length then
           "Key points from the article: " ++ String.intercalate " " (ms.take 5)
         else
           "Comprehensive summary unavailable. The article content may be inaccessible or formatted unusually. Please try another article.") := by
  have htext : ¬(selectedText fullArticle preview == "") = true := by
    simp only [beq_iff_eq]
    intro he
    exact h2 (by rw [he]; rfl)
  have hfil : (pySentSplit (selectedText fullArticle preview)).filter (fun s =>
      (pyStrip s).length > 30 && !(routeBoilerWords.any (fun w => strContains (lowerStr s) w)))
      = (pySentSplit (selectedText fullArticle preview)).filter (fun s =>
      decide (30 < (pyStrip s).length ∧ ∀ w ∈ routeBoilerWords, ¬ w.toList <:+: (lowerStr s).toList)) :=
    List.filter_congr (fun s _ => boilerPred_eq 30 routeBoilerWords s)
  simp only [summarize, if_neg (show ¬(url == "") = true by simpa using h1)]
  rw [if_neg (by simp), if_neg (by simp [htext, show ¬(pyStrip (selectedText fullArticle preview) == "") = true by simpa using h2])]
  rw [if_pos (show (summarize_text (selectedText fullArticle preview) title summaryResp == ""
        || strContains (summarize_text (selectedText fullArticle preview) title summaryResp)
             "⚠️ AI summary unavailable") = true by simp [h3])]
  simp only [HttpResult.summaryText, routeFallback, hfil, nonempty_and_ge3]
  cases hft : fullTruthy fullArticle <;> simp [hft]

set_option maxRecDepth 40000 in
set_option maxHeartbeats 2000000 in
theorem route_replaces_disclaimer_w :
    (summarize (some ("https://example.com/y", p9Preview, "")) true none none none).summaryText
      = "⚠️ Note: Full article content was unavailable. This summary is based on the preview text only.\n\nKey points from the article: The council approved a new budget for the coming fiscal year. Local schools will receive additional funding for repairs. Transit projects gained support from regional planners." :=
  (route_replaces_disclaimer "https://example.com/y" p9Preview "" none none none
    (by decide) (by decide) (by decide)).trans (by decide)

set_option maxRecDepth 40000 in
set_option maxHeartbeats 2000000 in
/-- C9 counterexample: the route's success response for a preview whose
sentences all carry the disclaimer phrase — the caller-visible summary
contains `⚠️ AI summary unavailable` even though the route replaced the
summarizer's fallback. -/
theorem route_disclaimer_reintroduced_cex :
    (summarize (some ("https://example.com/x", advPreview, "")) true none none none).isErr = false ∧
      strContains
        ((summarize (some ("https://example.com/x", advPreview, "")) true none none none).summaryText)
        "⚠️ AI summary unavailable" = true :=
  ⟨by decide, by decide⟩
